import Mathlib

/-!
# Verification of the Old Bailey record-search application

A shallow embedding, in Lean, of the Python application in `src/app.py`
(with one definition also taken from `src/app_old.py`), together with
theorems settling the specification claims about it.

Embedding conventions:
* Python exceptions are modelled with `Except String`; `Except.error`
  marks a raised exception (e.g. `ValueError` from `strptime`).
* The HTTP transport is a capability: a pure function from the request
  parameters to a `Response` value.  The list of offsets of the issued
  requests is returned alongside the result, so request-count claims can
  be stated.
* `re.search`/`re.sub` for the two concrete patterns used by the code
  (`\d{1,2}(?:st|nd|rd|th)?\s\w+\s\d{4}` and `(\d+)(st|nd|rd|th)`) are
  implemented directly as character-list scanners with Python's
  leftmost-match and greedy/backtracking behaviour.
* `datetime.strptime(s, "%d %B %Y")` is modelled after CPython's
  `_strptime`: `%d` matches `3[01]|[12]\d|0[1-9]|[1-9]`, a space in the
  format matches one or more whitespace characters, `%B` matches a full
  month name case-insensitively, `%Y` matches exactly four digits, the
  whole string must be consumed, and the resulting calendar date is
  validated (raising `ValueError`, i.e. `none`, otherwise).
-/

/-! ## Character classes (`\d`, `\s`, `\w` restricted to ASCII input) -/

def isDigitC (c : Char) : Bool := c.isDigit

def isSpaceC (c : Char) : Bool :=
  c == ' ' || c == '\t' || c == '\n' || c == '\r' || c == '\x0b' || c == '\x0c'

def isWordC (c : Char) : Bool := c.isAlphanum || c == '_'

/-- Value of a decimal digit character. -/
def digitVal (c : Char) : Nat := c.toNat - 48

/-- Split off the maximal run of characters satisfying `p`. -/
def takeRun (p : Char → Bool) : List Char → List Char × List Char
  | [] => ([], [])
  | c :: cs =>
    if p c then ((c :: (takeRun p cs).1), (takeRun p cs).2) else ([], c :: cs)

/-- Do two characters form one of the ordinal suffixes `st`, `nd`, `rd`, `th`? -/
def suffixPair (a b : Char) : Bool :=
  (a == 's' && b == 't') || (a == 'n' && b == 'd') ||
    (a == 'r' && b == 'd') || (a == 't' && b == 'h')

/-- Match the optional ordinal-suffix group `(?:st|nd|rd|th)?` greedily:
on success return the consumed suffix and the remaining input. -/
def trySuffix : List Char → Option (List Char × List Char)
  | a :: b :: rest => if suffixPair a b then some ([a, b], rest) else none
  | _ => none

/-- Match `\s\w+\s\d{4}` at the head of the input, returning the consumed
characters.  `\w+` is effectively maximal here: a shorter run would have to
be followed by `\s`, and word and whitespace characters are disjoint. -/
def matchSep (cs : List Char) : Option (List Char) :=
  match cs with
  | [] => none
  | c :: rest =>
    if isSpaceC c then
      match takeRun isWordC rest with
      | (w, rest2) =>
        if w = [] then none
        else
          match rest2 with
          | [] => none
          | c2 :: rest3 =>
            if isSpaceC c2 then
              match rest3 with
              | y1 :: y2 :: y3 :: y4 :: _ =>
                if isDigitC y1 && isDigitC y2 && isDigitC y3 && isDigitC y4 then
                  some (c :: w ++ c2 :: [y1, y2, y3, y4])
                else none
              | _ => none
            else none
    else none

/-- After the day digits `ds`, try the suffixed alternative first (greedy
optional group) and fall back to the unsuffixed one. -/
def matchDaySuffix (ds : List Char) (rest : List Char) : Option (List Char) :=
  (match trySuffix rest with
   | some (suf, rest2) => (matchSep rest2).map (fun t => ds ++ suf ++ t)
   | none => none) <|>
  (matchSep rest).map (fun t => ds ++ t)

/-- Try to match `\d{1,2}(?:st|nd|rd|th)?\s\w+\s\d{4}` at the head of the
input (two day digits tried before one, as `\d{1,2}` is greedy). -/
def matchFrom (cs : List Char) : Option (List Char) :=
  match cs with
  | [] => none
  | a :: rest =>
    if isDigitC a then
      (match rest with
       | b :: rest2 => if isDigitC b then matchDaySuffix [a, b] rest2 else none
       | [] => none) <|>
      matchDaySuffix [a] rest
    else none

/-- `re.search` for the date pattern: try each start position from the left,
returning the first (leftmost) match. -/
def reSearch : List Char → Option (List Char)
  | [] => none
  | c :: cs => matchFrom (c :: cs) <|> reSearch cs

/-- One left-to-right pass of `re.sub(r'(\d+)(st|nd|rd|th)', r'\1', s)`.
The flag records whether the previous character was a digit emitted by this
scan (a pending `\d+` run): an ordinal suffix directly after such a run is
deleted, and scanning resumes afterwards with the flag cleared, which is
exactly where `re.sub` resumes after a match.  (`\d+` never needs to
backtrack here: shortening the run leaves a digit where the suffix must
start, and no digit begins a suffix.) -/
def subGo : Bool → List Char → List Char
  | _, [] => []
  | prevDigit, a :: b :: cs =>
    if prevDigit && suffixPair a b then subGo false cs
    else if isDigitC a then a :: subGo true (b :: cs)
    else a :: subGo false (b :: cs)
  | _, [a] => [a]

/-- `re.sub(r'(\d+)(st|nd|rd|th)', r'\1', s)` — strip ordinal suffixes that
directly follow a digit run. -/
def subOrdinal (l : List Char) : List Char := subGo false l

/-! ## `datetime.strptime(date_str, "%d %B %Y")` -/

/-- A calendar date as carried by a Python `datetime` (only the fields the
application uses). -/
structure Date where
  year : Nat
  month : Nat
  day : Nat
deriving DecidableEq, Repr

/-- `%d`: CPython `_strptime` matches `3[01]|[12]\d|0[1-9]|[1-9]`,
alternatives tried in this order. -/
def parseDay : List Char → Option (Nat × List Char)
  | [] => none
  | a :: rest =>
    match rest with
    | b :: rest2 =>
      if a == '3' && (b == '0' || b == '1') then some (30 + digitVal b, rest2)
      else if (a == '1' || a == '2') && isDigitC b then
        some (digitVal a * 10 + digitVal b, rest2)
      else if a == '0' && ('1' ≤ b && b ≤ '9') then some (digitVal b, rest2)
      else if '1' ≤ a && a ≤ '9' then some (digitVal a, rest)
      else none
    | [] => if '1' ≤ a && a ≤ '9' then some (digitVal a, []) else none

/-- A space in a `strptime` format string matches `\s+`. -/
def parseSpaces1 (cs : List Char) : Option (List Char) :=
  match takeRun isSpaceC cs with
  | (sp, rest) => if sp = [] then none else some rest

/-- The full month names understood by `%B`, lowercased (CPython lowercases
both the input and the names), longest first as in `_strptime` (no name is a
prefix of another, so the order is in fact immaterial). -/
def monthsLower : List (List Char × Nat) :=
  [("september".toList, 9), ("february".toList, 2), ("november".toList, 11),
   ("december".toList, 12), ("january".toList, 1), ("october".toList, 10),
   ("august".toList, 8), ("april".toList, 4), ("march".toList, 3),
   ("june".toList, 6), ("july".toList, 7), ("may".toList, 5)]

/-- `%B`: match a full month name (on already-lowercased input). -/
def parseMonthB : List (List Char × Nat) → List Char → Option (Nat × List Char)
  | [], _ => none
  | (name, num) :: ms, cs =>
    if name.isPrefixOf cs then some (num, cs.drop name.length)
    else parseMonthB ms cs

/-- `%Y`: exactly four digits. -/
def parseYear4 : List Char → Option (Nat × List Char)
  | y1 :: y2 :: y3 :: y4 :: rest =>
    if isDigitC y1 && isDigitC y2 && isDigitC y3 && isDigitC y4 then
      some (((digitVal y1 * 10 + digitVal y2) * 10 + digitVal y3) * 10
        + digitVal y4, rest)
    else none
  | _ => none

def isLeapYear (y : Nat) : Bool :=
  y % 4 == 0 && (y % 100 != 0 || y % 400 == 0)

def daysInMonth (y m : Nat) : Nat :=
  if m == 2 then (if isLeapYear y then 29 else 28)
  else if m == 4 || m == 6 || m == 9 || m == 11 then 30
  else 31

/-- `datetime.strptime(s, "%d %B %Y")`, `none` meaning a raised
`ValueError` (either no match of the format against the whole string, or an
invalid calendar date such as day 31 in a 30-day month, or year 0). -/
def strptime_dBY (cs : List Char) : Option Date :=
  match parseDay (cs.map Char.toLower) with
  | none => none
  | some (day, r1) =>
    match parseSpaces1 r1 with
    | none => none
    | some r2 =>
      match parseMonthB monthsLower r2 with
      | none => none
      | some (mon, r3) =>
        match parseSpaces1 r3 with
        | none => none
        | some r4 =>
          match parseYear4 r4 with
          | none => none
          | some (yr, r5) =>
            if r5 = [] && yr != 0 && day ≤ daysInMonth yr mon then
              some { year := yr, month := mon, day := day }
            else none

/-! ## `extract_date` (`src/app.py`, lines 58-66) -/

/-- `extract_date(title)` from `src/app.py`: search for the date pattern,
strip ordinal suffixes, parse with `strptime`.  `Except.ok none` is
Python's `return None` (no match); `Except.error` is an uncaught
`ValueError` escaping from `strptime`. -/
def extract_date (title : String) : Except String (Option Date) :=
  match reSearch title.toList with
  | none => Except.ok none
  | some m =>
    match strptime_dBY (subOrdinal m) with
    | some d => Except.ok (some d)
    | none => Except.error "ValueError"

/-- `extract_date(title)` from `src/app_old.py`, lines 11-16: same search,
but the matched substring itself (or the sentinel `"Unknown"`) is returned,
so titles without a parseable date keep a sentinel date. -/
def extract_date_old (title : String) : String :=
  match reSearch title.toList with
  | some m => String.mk m
  | none => "Unknown"

/-! ## Data model: raw API records, responses, normalized rows -/

/-- The `_source` object of a raw API record. -/
structure RawSource where
  idkey : String
  text : String
  title : String
  images : List String
deriving DecidableEq, Repr

/-- A raw record from `data['hits']['hits']` (Python keys `_id`, `_index`,
`_type`, `_source`). -/
structure RawRecord where
  id : String
  index : String
  type : String
  source : RawSource
deriving DecidableEq, Repr

/-- An HTTP response from the search endpoint, already decoded:
`status_code`, `data['hits']['total']` and `data['hits']['hits']`. -/
structure Response where
  status_code : Nat
  total : Nat
  hits : List RawRecord
deriving Repr

/-- A normalized row of the result DataFrame built by `fetch_data`. -/
structure Row where
  id : String
  index : String
  type : String
  idkey : String
  text : String
  title : String
  images : List String
  date : String
deriving DecidableEq, Repr

/-- `date.strftime("%Y-%m-%d")` zero-pads month and day to two digits
(the year of any date parsed by `%Y` has four digits, so `toString` of the
year is its four-digit form). -/
def pad2 (n : Nat) : String := if n < 10 then "0" ++ toString n else toString n

def formatDate (d : Date) : String :=
  toString d.year ++ "-" ++ pad2 d.month ++ "-" ++ pad2 d.day

/-! ## `fetch_data` (`src/app.py`, lines 98-157) -/

/-- The record-mapping step of `fetch_data`'s inner loop (lines 133-146):
a record whose title parses contributes a row, a record whose
`extract_date` returns `None` is skipped, and a `ValueError` escapes. -/
def rowOfRecord (r : RawRecord) : Except String (Option Row) :=
  match extract_date r.source.title with
  | Except.error e => Except.error e
  | Except.ok none => Except.ok none
  | Except.ok (some d) =>
    Except.ok (some
      { id := r.id, index := r.index, type := r.type, idkey := r.source.idkey,
        text := r.source.text, title := r.source.title,
        images := r.source.images, date := formatDate d })

/-- Map the records of one page, in order, aborting on the first raised
exception. -/
def mapRecords : List RawRecord → Except String (List Row)
  | [] => Except.ok []
  | r :: rs =>
    match rowOfRecord r with
    | Except.error e => Except.error e
    | Except.ok none => mapRecords rs
    | Except.ok (some row) =>
      match mapRecords rs with
      | Except.error e => Except.error e
      | Except.ok rows => Except.ok (row :: rows)

/-- Python truthiness of the `max_results` argument (`if max_results:`):
`None` and `0` are both falsy. -/
def truthy : Option Nat → Bool
  | none => false
  | some n => n != 0

/-- `math.ceil(a / b)` for natural `a`, positive natural `b`. -/
def ceilDiv (a b : Nat) : Nat := (a + b - 1) / b

/-- The page loop of `fetch_data` (lines 121-148).  `first` is the response
of the initial request, reused for page 0.  For a later page the request at
offset `page * 10` is issued (appended to the log) and a non-success status
makes the whole function return an empty DataFrame.  The per-record
mapping may raise, which aborts everything. -/
def fetchGo (api : String → Nat → Response) (term : String) (first : Response) :
    List Nat → List Row → List Nat → Except String (List Row) × List Nat
  | [], acc, log => (Except.ok acc, log)
  | p :: rest, acc, log =>
    if p = 0 then
      match mapRecords first.hits with
      | Except.error e => (Except.error e, log)
      | Except.ok rs => fetchGo api term first rest (acc ++ rs) log
    else
      if (api term (p * 10)).status_code ≠ 200 then
        (Except.ok [], log ++ [p * 10])
      else
        match mapRecords (api term (p * 10)).hits with
        | Except.error e => (Except.error e, log ++ [p * 10])
        | Except.ok rs => fetchGo api term first rest (acc ++ rs) (log ++ [p * 10])

/-- `fetch_data(search_term, max_results=None)` (`src/app.py`, lines
98-157), with the transport as the capability `api term offset`.  The
second component is the list of offsets of the requests issued, in order.
`size_param` is the hardcoded page size 10. -/
def fetch_data (api : String → Nat → Response) (search_term : String)
    (max_results : Option Nat) : Except String (List Row) × List Nat :=
  if (api search_term 0).status_code = 200 then
    if (api search_term 0).total = 0 then (Except.ok [], [0])
    else
      fetchGo api search_term (api search_term 0)
        (List.range
          (if truthy max_results then
            ceilDiv (min (max_results.getD 0) (api search_term 0).total) 10
          else ceilDiv (api search_term 0).total 10))
        [] [0]
  else (Except.ok [], [0])

/-! ## `fetch_detailed_data` and `fetch_all_details` (lines 160-191) -/

/-- A decoded response of the single-record detail endpoint. -/
structure DetailResponse where
  status_code : Nat
  hits : List RawRecord
deriving Repr

/-- The dict built by `fetch_detailed_data` (lines 166-174). -/
structure DetailRecord where
  id : String
  index : String
  type : String
  idkey : String
  title : String
  images : List String
  text : String
deriving DecidableEq, Repr

/-- `fetch_detailed_data(idkey)` (the later definition, lines 160-180,
which shadows the earlier one): `none` covers both the non-success branch
and the `except` branch — in particular the `IndexError` on
`['hits']['hits'][0]` when a 200 response carries no hits is caught and
converted to `None`. -/
def fetch_detailed_data (api : String → DetailResponse) (idkey : String) :
    Option DetailRecord :=
  if (api idkey).status_code = 200 then
    match (api idkey).hits with
    | [] => none
    | record :: _ =>
      some
        { id := record.id, index := record.index, type := record.type,
          idkey := record.source.idkey, title := record.source.title,
          images := record.source.images, text := record.source.text }
  else none

/-- The loop of `fetch_all_details` (lines 185-189): `n` is
`len(filtered_df)`, `i` the running index; the second component is the
list of `(i + 1, n)` progress reports, one per attempt. -/
def detailsGo (api : String → DetailResponse) (n : Nat) :
    List Row → Nat → List DetailRecord × List (Nat × Nat)
  | [], _ => ([], [])
  | r :: rs, i =>
    match fetch_detailed_data api r.idkey with
    | some detail =>
      ((detail :: (detailsGo api n rs (i + 1)).1),
        ((i + 1, n) :: (detailsGo api n rs (i + 1)).2))
    | none =>
      ((detailsGo api n rs (i + 1)).1, ((i + 1, n) :: (detailsGo api n rs (i + 1)).2))

/-- `fetch_all_details(filtered_df)` (lines 182-191).  The progress bar
call `progress((i + 1) / len(filtered_df))` is recorded as the pair
`(i + 1, len(filtered_df))`. -/
def fetch_all_details (api : String → DetailResponse) (rows : List Row) :
    List DetailRecord × List (Nat × Nat) :=
  detailsGo api rows.length rows 0

/-! ## The orchestrator `main` (lines 194-215) -/

/-- The relevant slice of `st.session_state`: the cached search results
and the term that produced them. -/
structure SessionState where
  search_results : Option (List Row)
  search_term : String
deriving Repr

/-- The search-and-cache step of `main` (lines 198-202): with a non-empty
term, refetch iff there is no cached result or the cached term differs,
then store the returned DataFrame (empty or not) and the term.  A raised
exception propagates before anything is stored. -/
def mainSearch (api : String → Nat → Response) (s : SessionState)
    (term : String) : Except String (SessionState × List Nat) :=
  if term = "" then Except.ok (s, [])
  else if s.search_results.isNone || s.search_term != term then
    match fetch_data api term none with
    | (Except.ok rows, log) =>
      Except.ok ({ search_results := some rows, search_term := term }, log)
    | (Except.error e, _) => Except.error e
  else Except.ok (s, [])

/-- String comparison as performed by Python/pandas on the `date` column:
lexicographic by code point; `a <= b` iff `b` is not strictly smaller. -/
def strLe (a b : String) : Bool := ! decide (List.Lex (· < ·) b.data a.data)

/-- Line 215: `search_results[search_results['date'].between(lo, hi)]` with
the bounds `f"{years[0]}-01-01"` and `f"{years[1]}-12-31"` (`between` is
inclusive on both ends). -/
def yearRangeFilter (rows : List Row) (lo hi : Nat) : List Row :=
  rows.filter (fun r =>
    strLe (toString lo ++ "-01-01") r.date && strLe r.date (toString hi ++ "-12-31"))

/-! ## Concrete fixtures used by witnesses and counterexamples -/

def sampleSource : RawSource :=
  { idkey := "t18000115-1", text := "snippet", title := "Trial, 15 January 1800.",
    images := ["img-1"] }

def sampleRecord : RawRecord :=
  { id := "r1", index := "oldbailey", type := "record", source := sampleSource }

/-- The row `fetch_data` builds from `sampleRecord`. -/
def sampleRow : Row :=
  { id := "r1", index := "oldbailey", type := "record", idkey := "t18000115-1",
    text := "snippet", title := "Trial, 15 January 1800.", images := ["img-1"],
    date := "1800-01-15" }

/-- A record whose title has no parseable date. -/
def noDateSource : RawSource :=
  { idkey := "t-unknown", text := "s", title := "A case with no date", images := [] }

def noDateRecord : RawRecord :=
  { id := "r2", index := "oldbailey", type := "record", source := noDateSource }

/-- Fixture: every page succeeds with 10 records, 100 total hits. -/
def hundredHitsApi : String → Nat → Response :=
  fun _ _ => { status_code := 200, total := 100, hits := List.replicate 10 sampleRecord }

/-- Fixture: 3 total hits on a single page. -/
def threeHitsApi : String → Nat → Response :=
  fun _ _ => { status_code := 200, total := 3, hits := [sampleRecord] }

/-- Fixture: zero total hits. -/
def zeroHitsApi : String → Nat → Response :=
  fun _ _ => { status_code := 200, total := 0, hits := [] }

/-- Fixture: the initial request succeeds with 30 total hits, every later
request fails with status 500. -/
def midFailApi : String → Nat → Response :=
  fun _ off =>
    if off = 0 then { status_code := 200, total := 30, hits := [sampleRecord] }
    else { status_code := 500, total := 0, hits := [] }

/-- Fixture: the transport is down entirely. -/
def downApi : String → Nat → Response :=
  fun _ _ => { status_code := 500, total := 0, hits := [] }

/-- Fixture: a single page whose only record has no parseable date. -/
def noDateApi : String → Nat → Response :=
  fun _ _ => { status_code := 200, total := 1, hits := [noDateRecord] }

/-! ## Auxiliary notions for reasoning about date strings -/

/-- The decimal digit characters of `n`, most significant first — the
mathematical description of `Nat.repr`/`toString`, used to reason about
the strings `fetch_data` and `main` compare. -/
def natChars (n : Nat) : List Char :=
  if n < 10 then [Nat.digitChar n]
  else natChars (n / 10) ++ [Nat.digitChar (n % 10)]
decreasing_by exact Nat.div_lt_self (by omega) (by omega)

/-- The character list of the `"YYYY-MM-DD"` string of a date with a
four-digit year and two-digit month and day. -/
def dateData (y m d : Nat) : List Char :=
  Nat.digitChar (y / 1000) :: Nat.digitChar (y / 100 % 10)
    :: Nat.digitChar (y / 10 % 10) :: Nat.digitChar (y % 10) :: '-'
    :: Nat.digitChar (m / 10) :: Nat.digitChar (m % 10) :: '-'
    :: Nat.digitChar (d / 10) :: Nat.digitChar (d % 10) :: []

/-- A calendar date collapsed to one number; on dates with `month ≤ 99`
and `day ≤ 99` its order is the calendar (lexicographic) order. -/
def dateKey (y m d : Nat) : Nat := y * 10000 + m * 100 + d

/-! ## Helper lemmas -/

/-- Concrete behaviour of the date-extraction model, matching CPython's
`re`/`strptime` on the same inputs (incl. leap years, case-insensitive
month names, the `%d` pattern rejecting `00`, leftmost matching inside
digit runs, and `ValueError` on non-month words or invalid days). -/
theorem extract_date_model_validation :
    extract_date "Trial, 15 January 1800." = Except.ok (some ⟨1800, 1, 15⟩)
    ∧ extract_date "A case with no date" = Except.ok none
    ∧ extract_date "31st May 1750" = Except.ok (some ⟨1750, 5, 31⟩)
    ∧ extract_date "31 February 1800" = Except.error "ValueError"
    ∧ extract_date "29 February 1800" = Except.error "ValueError"
    ∧ extract_date "29 February 1804" = Except.ok (some ⟨1804, 2, 29⟩)
    ∧ extract_date "the 201st January 1800" = Except.ok (some ⟨1800, 1, 1⟩)
    ∧ extract_date "123rd May 1066" = Except.ok (some ⟨1066, 5, 23⟩)
    ∧ extract_date "12 MAY 1800" = Except.ok (some ⟨1800, 5, 12⟩)
    ∧ extract_date "00 May 1800" = Except.error "ValueError"
    ∧ extract_date_old "A case with no date" = "Unknown"
    ∧ extract_date_old "Trial, 15 January 1800." = "15 January 1800"
    ∧ subOrdinal "12 34th x 9nd".toList = "12 34 x 9".toList
    ∧ rowOfRecord sampleRecord = Except.ok (some sampleRow) :=
  ⟨rfl, rfl, rfl, rfl, rfl, rfl, rfl, rfl, rfl, rfl, rfl, rfl, rfl, rfl⟩

theorem mapRecords_length (l : List RawRecord) (rs : List Row)
    (h : mapRecords l = Except.ok rs) : rs.length ≤ l.length := by
  induction l generalizing rs with
  | nil =>
    rw [mapRecords] at h
    cases h
    simp
  | cons r l ih =>
    rw [mapRecords] at h
    cases hr : rowOfRecord r with
    | error e => rw [hr] at h; cases h
    | ok o =>
      cases o with
      | none =>
        rw [hr] at h
        have := ih rs h
        simp
        omega
      | some row =>
        rw [hr] at h
        cases hm : mapRecords l with
        | error e => rw [hm] at h; cases h
        | ok rows =>
          rw [hm] at h
          cases h
          have := ih rows hm
          simp
          omega

theorem range'_split (s m n : Nat) :
    List.range' s (m + n) = List.range' s m ++ List.range' (s + m) n := by
  rw [Nat.add_comm m n, ← List.range'_append_1]

/-- Unfolding equation of `fetchGo` for the empty page list. -/
theorem fetchGo_nil (api : String → Nat → Response) (term : String)
    (first : Response) (acc : List Row) (log : List Nat) :
    fetchGo api term first [] acc log = (Except.ok acc, log) := rfl

/-- Unfolding equation of `fetchGo` for a non-empty page list. -/
theorem fetchGo_cons (api : String → Nat → Response) (term : String)
    (first : Response) (p : Nat) (rest : List Nat) (acc : List Row)
    (log : List Nat) :
    fetchGo api term first (p :: rest) acc log =
      if p = 0 then
        match mapRecords first.hits with
        | Except.error e => (Except.error e, log)
        | Except.ok rs => fetchGo api term first rest (acc ++ rs) log
      else
        if (api term (p * 10)).status_code ≠ 200 then
          (Except.ok [], log ++ [p * 10])
        else
          match mapRecords (api term (p * 10)).hits with
          | Except.error e => (Except.error e, log ++ [p * 10])
          | Except.ok rs =>
            fetchGo api term first rest (acc ++ rs) (log ++ [p * 10]) := rfl

/-- Running the page loop over successful page indices `l` and then a
failing page `k` returns the empty DataFrame, with the offsets of `l` and
of `k` all logged (the pages after `k` are never requested). -/
theorem fetchGo_fail_list (api : String → Nat → Response) (term : String)
    (first : Response) (k : Nat) (hk : 0 < k)
    (hfail : (api term (k * 10)).status_code ≠ 200) :
    ∀ (l : List Nat) (rest : List Nat) (acc : List Row) (log : List Nat),
      (∀ j ∈ l, 0 < j ∧ (api term (j * 10)).status_code = 200
        ∧ ∃ rs, mapRecords (api term (j * 10)).hits = Except.ok rs) →
      fetchGo api term first (l ++ k :: rest) acc log
        = (Except.ok [], log ++ l.map (· * 10) ++ [k * 10]) := by
  intro l
  induction l with
  | nil =>
    intro rest acc log _
    rw [List.nil_append, fetchGo_cons, if_neg (by omega), if_pos hfail]
    simp
  | cons j l ih =>
    intro rest acc log hl
    obtain ⟨hj0, hj200, rs, hjmap⟩ := hl j (List.mem_cons_self j l)
    rw [List.cons_append, fetchGo_cons, if_neg (by omega),
      if_neg (not_not_intro hj200), hjmap]
    show fetchGo api term first (l ++ k :: rest) (acc ++ rs) (log ++ [j * 10])
        = (Except.ok [], log ++ (j :: l).map (· * 10) ++ [k * 10])
    rw [ih rest (acc ++ rs) (log ++ [j * 10])
      (fun x hx => hl x (List.mem_cons_of_mem j hx))]
    simp

/-- A non-success response on page `k` (any page after the first, all
earlier pages succeeding) makes `fetch_data` return an empty DataFrame,
with exactly the `k + 1` requests at offsets `0, 10, …, k * 10` issued. -/
theorem fetch_data_fail_at_aux (api : String → Nat → Response) (term : String)
    (k : Nat) (hk : 0 < k)
    (h200 : (api term 0).status_code = 200)
    (hkpages : k < ceilDiv (api term 0).total 10)
    (hmap0 : ∃ rs, mapRecords (api term 0).hits = Except.ok rs)
    (hprev : ∀ j, 0 < j → j < k → (api term (j * 10)).status_code = 200
      ∧ ∃ rs, mapRecords (api term (j * 10)).hits = Except.ok rs)
    (hfail : (api term (k * 10)).status_code ≠ 200) :
    fetch_data api term none
      = (Except.ok [], (List.range (k + 1)).map (· * 10)) := by
  obtain ⟨rs0, hrs0⟩ := hmap0
  have hnz : (api term 0).total ≠ 0 := by
    intro h0
    rw [h0] at hkpages
    simp [ceilDiv] at hkpages
  obtain ⟨r, hr⟩ : ∃ r, ceilDiv (api term 0).total 10 = 1 + ((k - 1) + (1 + r)) :=
    ⟨ceilDiv (api term 0).total 10 - (k + 1), by omega⟩
  have hsplit : List.range (ceilDiv (api term 0).total 10)
      = 0 :: (List.range' 1 (k - 1) ++ k :: List.range' (k + 1) r) := by
    rw [List.range_eq_range', hr, range'_split 0 1 _, Nat.zero_add,
      range'_split 1 (k - 1) _, show 1 + (k - 1) = k from by omega,
      range'_split k 1 _]
    simp
  have hlog : ([0] ++ (List.range' 1 (k - 1)).map (· * 10)) ++ [k * 10]
      = (List.range (k + 1)).map (· * 10) := by
    rw [List.range_eq_range', show k + 1 = 1 + ((k - 1) + 1) from by omega,
      range'_split 0 1 _, Nat.zero_add, range'_split 1 (k - 1) _,
      show 1 + (k - 1) = k from by omega]
    simp
  rw [fetch_data, if_pos h200, if_neg hnz,
    show truthy none = false from rfl, if_neg (by simp), hsplit,
    fetchGo_cons, if_pos rfl, hrs0]
  show fetchGo api term (api term 0)
      (List.range' 1 (k - 1) ++ k :: List.range' (k + 1) r)
      ([] ++ rs0) [0]
      = (Except.ok [], (List.range (k + 1)).map (· * 10))
  rw [fetchGo_fail_list api term (api term 0) k hk hfail _ _ _ _
    (fun j hj => by
      have hj' := List.mem_range'_1.mp hj
      exact ⟨by omega, (hprev j (by omega) (by omega)).1,
        (hprev j (by omega) (by omega)).2⟩)]
  rw [← hlog]

theorem mainSearch_fresh (api : String → Nat → Response) (term : String)
    (rows : List Row) (log : List Nat) (hterm : term ≠ "")
    (hok : fetch_data api term none = (Except.ok rows, log)) :
    mainSearch api { search_results := none, search_term := "" } term
      = Except.ok ({ search_results := some rows, search_term := term }, log) := by
  rw [mainSearch, if_neg hterm, if_pos (by simp), hok]

theorem mainSearch_cached (api : String → Nat → Response) (rows : List Row)
    (term : String) (hterm : term ≠ "") :
    mainSearch api { search_results := some rows, search_term := term } term
      = Except.ok ({ search_results := some rows, search_term := term }, []) := by
  rw [mainSearch, if_neg hterm, if_neg (by simp)]

/-! ## Claim C9: `extract_date` is not total -/

/-- C9: `extract_date` is not total on arbitrary strings: on the title
`"12 foobar 1800"`, whose text matches the digits-word-digits pattern but
whose middle word is no month name, it raises `ValueError` from `strptime`
instead of returning a date or `None`. -/
theorem extract_date_value_error :
    extract_date "12 foobar 1800" = Except.error "ValueError" := rfl

/-! ## Claim C6: zero total hits -/

/-- C6: if the initial request succeeds and reports `total_hits = 0`,
`fetch_data` returns an empty result as a normal (`Except.ok`) outcome and
issues exactly the one request at offset 0. -/
theorem fetch_data_zero_hits (api : String → Nat → Response) (term : String)
    (max_results : Option Nat) (h200 : (api term 0).status_code = 200)
    (h0 : (api term 0).total = 0) :
    fetch_data api term max_results = (Except.ok [], [0]) := by
  rw [fetch_data, if_pos h200, if_pos h0]

/-- Witness for C6 at a concrete fixture. -/
theorem fetch_data_zero_hits_witness :
    fetch_data zeroHitsApi "theft" none = (Except.ok [], [0]) :=
  fetch_data_zero_hits zeroHitsApi "theft" none rfl rfl

/-! ## Claim C2: `max_results = 0` -/

/-- C2 counterexample: with `max_results = 0` against an upstream holding 3
hits, `fetch_data` issues a request (offset 0) and returns a non-empty
result — not the claimed empty set with no network call. -/
theorem fetch_data_max0_counterexample :
    fetch_data threeHitsApi "theft" (some 0) = (Except.ok [sampleRow], [0])
    ∧ ([0] : List Nat) ≠ []
    ∧ (Except.ok [sampleRow] : Except String (List Row)) ≠ Except.ok [] :=
  ⟨rfl, by simp, by simp⟩

/-- C2 amended: `max_results = 0` is falsy in Python (`if max_results:`),
so it is treated exactly like `None`: the fetch proceeds with no cap,
issuing its initial request (and any further page requests). -/
theorem fetch_data_max0_eq_none (api : String → Nat → Response) (term : String) :
    fetch_data api term (some 0) = fetch_data api term none := rfl

/-! ## Claim C4: records without a parseable date -/

theorem extract_date_old_unknown (t : String)
    (h : extract_date t = Except.ok none) : extract_date_old t = "Unknown" := by
  cases hm : reSearch t.toList with
  | none => unfold extract_date_old; simp only [hm]
  | some m =>
    exfalso
    unfold extract_date at h
    simp only [hm] at h
    cases hs : strptime_dBY (subOrdinal m) <;> simp only [hs] at h <;> simp at h

/-- C4 counterexample: a fetched record whose title has no parseable date
is dropped from the result set (the result is empty even though the page
carried the record) rather than kept with a sentinel date. -/
theorem fetch_data_nodate_counterexample :
    fetch_data noDateApi "theft" none = (Except.ok [], [0])
    ∧ extract_date "A case with no date" = Except.ok none
    ∧ (noDateApi "theft" 0).hits = [noDateRecord] :=
  ⟨rfl, rfl, rfl⟩

/-- C4 amended: in `app.py` a record whose `extract_date` returns `None`
is silently dropped (no row, no exception); the `app_old.py` sibling
instead keeps such records, with the sentinel date `"Unknown"` that its own
`extract_date` returns. -/
theorem mapRecords_nodate_dropped (records : List RawRecord)
    (h : ∀ r ∈ records, extract_date r.source.title = Except.ok none) :
    mapRecords records = Except.ok []
    ∧ ∀ r ∈ records, extract_date_old r.source.title = "Unknown" := by
  refine ⟨?_, fun r hr => extract_date_old_unknown _ (h r hr)⟩
  induction records with
  | nil => rfl
  | cons r rs ih =>
    have hr := h r (List.mem_cons_self r rs)
    have ih' := ih (fun x hx => h x (List.mem_cons_of_mem r hx))
    rw [mapRecords, rowOfRecord, hr, ih']

/-- Witness for C4 at a concrete fixture. -/
theorem mapRecords_nodate_dropped_witness :
    mapRecords [noDateRecord] = Except.ok []
    ∧ ∀ r ∈ [noDateRecord], extract_date_old r.source.title = "Unknown" :=
  mapRecords_nodate_dropped [noDateRecord]
    (fun r hr => by rw [List.mem_singleton] at hr; subst hr; rfl)

/-! ## Claim C3: failure on a later page -/

/-- C3 counterexample: a 500 on the second page of three does not raise any
error: `fetch_data` returns `Except.ok []` — the very value of a
successful zero-match search — after requests at offsets 0 and 10, and
`main` then caches this empty DataFrame for the term. -/
theorem fetch_data_midpage_failure_counterexample :
    fetch_data midFailApi "theft" none = (Except.ok [], [0, 10])
    ∧ (∀ e : String, (fetch_data midFailApi "theft" none).1 ≠ Except.error e)
    ∧ mainSearch midFailApi { search_results := none, search_term := "" } "theft"
        = Except.ok ({ search_results := some [], search_term := "theft" }, [0, 10]) :=
  ⟨rfl,
    fun e h =>
      absurd (show (Except.ok [] : Except String (List Row)) = Except.error e from h)
        (by simp),
    rfl⟩

/-- C3 amended: a non-success response on any page `k` after the first
(the earlier pages having succeeded) makes `fetch_data` return an empty
`Except.ok` result — not a raised error, and indistinguishable from a
zero-match search — discarding the rows already collected from the `k`
earlier pages; `main` then caches this empty ResultSet for the term.  The
request log is the `k + 1` offsets `0, 10, …, k * 10`. -/
theorem fetch_data_midpage_failure (api : String → Nat → Response)
    (term : String) (k : Nat) (hterm : term ≠ "") (hk : 0 < k)
    (h200 : (api term 0).status_code = 200)
    (hkpages : k < ceilDiv (api term 0).total 10)
    (hmap0 : ∃ rs, mapRecords (api term 0).hits = Except.ok rs)
    (hprev : ∀ j, 0 < j → j < k → (api term (j * 10)).status_code = 200
      ∧ ∃ rs, mapRecords (api term (j * 10)).hits = Except.ok rs)
    (hfail : (api term (k * 10)).status_code ≠ 200) :
    fetch_data api term none
      = (Except.ok [], (List.range (k + 1)).map (· * 10))
    ∧ mainSearch api { search_results := none, search_term := "" } term
        = Except.ok ({ search_results := some [], search_term := term },
            (List.range (k + 1)).map (· * 10)) := by
  have h1 := fetch_data_fail_at_aux api term k hk h200 hkpages hmap0 hprev hfail
  exact ⟨h1, mainSearch_fresh api term [] _ hterm h1⟩

/-- Witness for C3 at the concrete fixture (failure at page `k = 1`). -/
theorem fetch_data_midpage_failure_witness :
    fetch_data midFailApi "theft" none = (Except.ok [], [0, 10])
    ∧ mainSearch midFailApi { search_results := none, search_term := "" } "theft"
        = Except.ok ({ search_results := some [], search_term := "theft" }, [0, 10]) :=
  fetch_data_midpage_failure midFailApi "theft" 1 (by decide) (by decide) rfl
    (by decide) ⟨[sampleRow], rfl⟩
    (fun j hj0 hj1 => absurd hj1 (by omega)) (by decide)

/-! ## Claim C10: transport failure is indistinguishable from zero matches -/

/-- C10: a non-success status on the initial request makes `fetch_data`
return exactly the value a successful zero-match search returns
(`Except.ok []` after one request), and a non-success status on any later
page `k` likewise yields `Except.ok []` (after the `k + 1` requests), so
the caller cannot tell a transport failure from zero matches; in either
case `main` caches the empty DataFrame keyed by the term, and searching
the same term again returns the cached empty set with no new request. -/
theorem fetch_data_failure_indistinguishable (api : String → Nat → Response)
    (term : String) (max_results : Option Nat)
    (hfail : (api term 0).status_code ≠ 200) :
    fetch_data api term max_results = (Except.ok [], [0])
    ∧ (∀ api0 : String → Nat → Response, (api0 term 0).status_code = 200 →
        (api0 term 0).total = 0 →
        fetch_data api0 term max_results = (Except.ok [], [0]))
    ∧ (term ≠ "" →
        mainSearch api { search_results := none, search_term := "" } term
          = Except.ok ({ search_results := some [], search_term := term }, [0]))
    ∧ (∀ api3 : String → Nat → Response, ∀ k : Nat, 0 < k →
        k < ceilDiv (api3 term 0).total 10 →
        (api3 term 0).status_code = 200 →
        (∃ rs, mapRecords (api3 term 0).hits = Except.ok rs) →
        (∀ j, 0 < j → j < k → (api3 term (j * 10)).status_code = 200
          ∧ ∃ rs, mapRecords (api3 term (j * 10)).hits = Except.ok rs) →
        (api3 term (k * 10)).status_code ≠ 200 →
        fetch_data api3 term none
          = (Except.ok [], (List.range (k + 1)).map (· * 10))
        ∧ (term ≠ "" →
            mainSearch api3 { search_results := none, search_term := "" } term
              = Except.ok ({ search_results := some [], search_term := term },
                  (List.range (k + 1)).map (· * 10))))
    ∧ (∀ api2 : String → Nat → Response, term ≠ "" →
        mainSearch api2 { search_results := some [], search_term := term } term
          = Except.ok ({ search_results := some [], search_term := term }, [])) := by
  have hbase : fetch_data api term max_results = (Except.ok [], [0]) := by
    rw [fetch_data, if_neg hfail]
  refine ⟨hbase, ?_, ?_, ?_, ?_⟩
  · intro api0 h200 h0
    rw [fetch_data, if_pos h200, if_pos h0]
  · intro hterm
    exact mainSearch_fresh api term [] [0] hterm (by rw [fetch_data, if_neg hfail])
  · intro api3 k hk hkpages h200 hmap0 hprev hf
    have h1 := fetch_data_fail_at_aux api3 term k hk h200 hkpages hmap0 hprev hf
    exact ⟨h1, fun hterm => mainSearch_fresh api3 term [] _ hterm h1⟩
  · intro api2 hterm
    exact mainSearch_cached api2 [] term hterm

/-- Witness for C10 at concrete fixtures: an initial failure, a
second-page failure (with its cached empty set), and a cached re-search. -/
theorem fetch_data_failure_indistinguishable_witness :
    fetch_data downApi "theft" none = (Except.ok [], [0])
    ∧ fetch_data midFailApi "theft" none = (Except.ok [], [0, 10])
    ∧ mainSearch midFailApi { search_results := none, search_term := "" } "theft"
        = Except.ok ({ search_results := some [], search_term := "theft" }, [0, 10])
    ∧ mainSearch downApi { search_results := some [], search_term := "theft" } "theft"
        = Except.ok ({ search_results := some [], search_term := "theft" }, []) :=
  ⟨(fetch_data_failure_indistinguishable downApi "theft" none (by decide)).1,
    ((fetch_data_failure_indistinguishable downApi "theft" none
      (by decide)).2.2.2.1 midFailApi 1 (by decide) (by decide) rfl
      ⟨[sampleRow], rfl⟩ (fun j hj0 hj1 => absurd hj1 (by omega))
      (by decide)).1,
    ((fetch_data_failure_indistinguishable downApi "theft" none
      (by decide)).2.2.2.1 midFailApi 1 (by decide) (by decide) rfl
      ⟨[sampleRow], rfl⟩ (fun j hj0 hj1 => absurd hj1 (by omega))
      (by decide)).2 (by decide),
    (fetch_data_failure_indistinguishable downApi "theft" none
      (by decide)).2.2.2.2 downApi (by decide)⟩

/-! ## Claim C1: `max_results = 25`, 100 total hits -/

/-- C1 counterexample: against an upstream reporting 100 hits with 10
records per page, `fetch_data` with `max_results = 25` does issue exactly
the three requests at offsets 0, 10, 20 — but it returns all 30 fetched
rows: the 25-row cap of the claim is not applied. -/
theorem fetch_data_cap25_counterexample :
    fetch_data hundredHitsApi "theft" (some 25)
        = (Except.ok (List.replicate 30 sampleRow), [0, 10, 20])
    ∧ 25 < (List.replicate 30 sampleRow).length :=
  ⟨rfl, by decide⟩

/-- C1 amended: with `max_results = 25` against `total_hits = 100`,
`fetch_data` issues exactly 3 page requests, at offsets 0, 10 and 20, and
returns the concatenation of the three mapped pages — at most 30 rows
(pages × page size); the cap only bounds the page count, it is never
applied to the row count. -/
theorem fetch_data_cap25 (api : String → Nat → Response) (term : String)
    (rs0 rs1 rs2 : List Row)
    (h0 : (api term 0).status_code = 200)
    (htot : (api term 0).total = 100)
    (h10 : (api term 10).status_code = 200)
    (h20 : (api term 20).status_code = 200)
    (hlen : ∀ off : Nat, ((api term off).hits).length ≤ 10)
    (hm0 : mapRecords (api term 0).hits = Except.ok rs0)
    (hm1 : mapRecords (api term 10).hits = Except.ok rs1)
    (hm2 : mapRecords (api term 20).hits = Except.ok rs2) :
    fetch_data api term (some 25) = (Except.ok (rs0 ++ rs1 ++ rs2), [0, 10, 20])
    ∧ (rs0 ++ rs1 ++ rs2).length ≤ 30 := by
  constructor
  · rw [fetch_data, if_pos h0, if_neg (by omega), htot]
    show fetchGo api term (api term 0) [0, 1, 2] [] [0]
      = (Except.ok (rs0 ++ rs1 ++ rs2), [0, 10, 20])
    simp [fetchGo_cons, fetchGo_nil, hm0, hm1, hm2, h10, h20]
  · have l0 := mapRecords_length _ _ hm0
    have l1 := mapRecords_length _ _ hm1
    have l2 := mapRecords_length _ _ hm2
    have b0 := hlen 0
    have b1 := hlen 10
    have b2 := hlen 20
    simp only [List.length_append]
    omega

/-- Witness for C1 (amended) at the concrete fixture. -/
theorem fetch_data_cap25_witness :
    fetch_data hundredHitsApi "theft" (some 25)
        = (Except.ok (List.replicate 10 sampleRow ++ List.replicate 10 sampleRow
            ++ List.replicate 10 sampleRow), [0, 10, 20])
    ∧ (List.replicate 10 sampleRow ++ List.replicate 10 sampleRow
        ++ List.replicate 10 sampleRow).length ≤ 30 :=
  fetch_data_cap25 hundredHitsApi "theft" _ _ _ rfl rfl rfl rfl
    (fun _ => show (List.replicate 10 sampleRecord).length ≤ 10 by decide)
    rfl rfl rfl

/-! ## Claim C5: ordinal suffixes are stripped -/

theorem mk_toList (l : List Char) : (String.mk l).toList = l := rfl

theorem takeRun_append (p : Char → Bool) (xs ys : List Char)
    (hxs : ∀ c ∈ xs, p c = true)
    (hys : ∀ d ds, ys = d :: ds → p d = false) :
    takeRun p (xs ++ ys) = (xs, ys) := by
  induction xs with
  | nil =>
    cases ys with
    | nil => rfl
    | cons d ds =>
      have := hys d ds rfl
      simp [takeRun, this]
  | cons x xs ih =>
    have hx := hxs x (List.mem_cons_self x xs)
    have ih' := ih (fun c hc => hxs c (List.mem_cons_of_mem x hc))
    simp [takeRun, hx, ih']

/-- `matchSep` on a space, a non-empty word, a space and four digits —
followed by anything — succeeds and consumes exactly up to the fourth
digit. -/
theorem matchSep_spec (mcs : List Char) (y1 y2 y3 y4 : Char) (S : List Char)
    (hm : mcs ≠ []) (hmw : ∀ c ∈ mcs, isWordC c = true)
    (hy1 : isDigitC y1 = true) (hy2 : isDigitC y2 = true)
    (hy3 : isDigitC y3 = true) (hy4 : isDigitC y4 = true) :
    matchSep (' ' :: (mcs ++ ' ' :: (y1 :: y2 :: y3 :: y4 :: S)))
      = some (' ' :: (mcs ++ ' ' :: [y1, y2, y3, y4])) := by
  have hrun : takeRun isWordC (mcs ++ ' ' :: (y1 :: y2 :: y3 :: y4 :: S))
      = (mcs, ' ' :: (y1 :: y2 :: y3 :: y4 :: S)) :=
    takeRun_append _ _ _ hmw (by intro d ds h; cases h; rfl)
  simp [matchSep, hrun, hm, hy1, hy2, hy3, hy4,
    show isSpaceC ' ' = true from rfl]

/-- The head of an ordinal suffix is never a digit. -/
theorem suffix_head_not_digit (a b : Char) (h : suffixPair a b = true) :
    isDigitC a = false := by
  unfold suffixPair at h
  simp only [Bool.or_eq_true, Bool.and_eq_true, beq_iff_eq] at h
  rcases h with ((⟨rfl, -⟩ | ⟨rfl, -⟩) | ⟨rfl, -⟩) | ⟨rfl, -⟩ <;> rfl

theorem trySuffix_space (z : Char) (zs : List Char) :
    trySuffix (' ' :: z :: zs) = none := rfl

theorem matchDaySuffix_suffix (ds : List Char) (a b : Char)
    (rest consumed : List Char)
    (hpair : suffixPair a b = true) (hsep : matchSep rest = some consumed) :
    matchDaySuffix ds (a :: b :: rest) = some (ds ++ a :: b :: consumed) := by
  simp [matchDaySuffix, trySuffix, hpair, hsep]

theorem matchDaySuffix_plain (ds : List Char) (rest consumed : List Char)
    (hns : trySuffix rest = none) (hsep : matchSep rest = some consumed) :
    matchDaySuffix ds rest = some (ds ++ consumed) := by
  simp [matchDaySuffix, hns, hsep]

theorem matchFrom_day1_suffix (c a b : Char) (rest consumed : List Char)
    (hc : isDigitC c = true) (hna : isDigitC a = false)
    (hpair : suffixPair a b = true) (hsep : matchSep rest = some consumed) :
    matchFrom (c :: a :: b :: rest) = some (c :: a :: b :: consumed) := by
  simp [matchFrom, hc, hna,
    matchDaySuffix_suffix [c] a b rest consumed hpair hsep]

theorem matchFrom_day2_suffix (c1 c2 a b : Char) (rest consumed : List Char)
    (hc1 : isDigitC c1 = true) (hc2 : isDigitC c2 = true)
    (hpair : suffixPair a b = true) (hsep : matchSep rest = some consumed) :
    matchFrom (c1 :: c2 :: a :: b :: rest)
      = some (c1 :: c2 :: a :: b :: consumed) := by
  simp [matchFrom, hc1, hc2,
    matchDaySuffix_suffix [c1, c2] a b rest consumed hpair hsep]

theorem matchFrom_day1_plain (c z : Char) (zs consumed : List Char)
    (hc : isDigitC c = true) (hz : isDigitC z = false)
    (hns : trySuffix (z :: zs) = none)
    (hsep : matchSep (z :: zs) = some consumed) :
    matchFrom (c :: z :: zs) = some (c :: consumed) := by
  simp [matchFrom, hc, hz, matchDaySuffix_plain [c] (z :: zs) consumed hns hsep]

theorem matchFrom_day2_plain (c1 c2 z : Char) (zs consumed : List Char)
    (hc1 : isDigitC c1 = true) (hc2 : isDigitC c2 = true)
    (hns : trySuffix (z :: zs) = none)
    (hsep : matchSep (z :: zs) = some consumed) :
    matchFrom (c1 :: c2 :: z :: zs) = some (c1 :: c2 :: consumed) := by
  simp [matchFrom, hc1, hc2,
    matchDaySuffix_plain [c1, c2] (z :: zs) consumed hns hsep]

theorem reSearch_of_matchFrom (c : Char) (cs m : List Char)
    (h : matchFrom (c :: cs) = some m) : reSearch (c :: cs) = some m := by
  rw [reSearch, h]
  rfl

theorem matchFrom_nondigit (c : Char) (cs : List Char)
    (h : isDigitC c = false) : matchFrom (c :: cs) = none := by
  simp [matchFrom, h]

theorem reSearch_cons (c : Char) (cs : List Char) :
    reSearch (c :: cs) = (matchFrom (c :: cs) <|> reSearch cs) := rfl

/-- The leftmost-search step for surrounding text: the pattern starts with
`\d{1,2}`, so no match can start inside a digit-free region, and
`re.search` on a title with a digit-free lead is `re.search` on the rest. -/
theorem reSearch_append_nondigit (P rest : List Char)
    (hP : ∀ c ∈ P, isDigitC c = false) :
    reSearch (P ++ rest) = reSearch rest := by
  induction P with
  | nil => rfl
  | cons c P ih =>
    rw [List.cons_append, reSearch_cons,
      matchFrom_nondigit c _ (hP c (List.mem_cons_self c P)),
      ih (fun x hx => hP x (List.mem_cons_of_mem c hx))]
    rfl

/-- Once the leftmost match is known, `extract_date` is the strip-and-parse
of that match. -/
theorem extract_date_eq_of (t : String) (m : List Char)
    (h : reSearch t.toList = some m) :
    extract_date t = (match strptime_dBY (subOrdinal m) with
      | some d => Except.ok (some d)
      | none => Except.error "ValueError") := by
  unfold extract_date
  rw [h]

theorem digit_not_suffixPair (a b : Char) (h : isDigitC a = true) :
    suffixPair a b = false := by
  have key : ∀ l : Char, isDigitC l = false → (a == l) = false := by
    intro l hl
    cases hq : a == l with
    | false => rfl
    | true =>
      rw [beq_iff_eq.mp hq] at h
      rw [h] at hl
      cases hl
  rw [suffixPair, key 's' rfl, key 'n' rfl, key 'r' rfl, key 't' rfl]
  rfl

theorem subGo_digit_cons (prev : Bool) (d z : Char) (zs : List Char)
    (hd : isDigitC d = true) :
    subGo prev (d :: z :: zs) = d :: subGo true (z :: zs) := by
  simp [subGo, digit_not_suffixPair d z hd, hd]

theorem subGo_suffix_del (a b : Char) (rest : List Char)
    (hpair : suffixPair a b = true) :
    subGo true (a :: b :: rest) = subGo false rest := by
  simp [subGo, hpair]

theorem subGo_space (prev : Bool) (rest : List Char) :
    subGo prev (' ' :: rest) = ' ' :: subGo false rest := by
  cases rest with
  | nil => rfl
  | cons z zs =>
    simp [subGo, show ∀ w, suffixPair ' ' w = false from fun _ => rfl,
      show isDigitC ' ' = false from rfl]

/-- C5: for every title that contains a day-month-year substring with an
ordinal suffix — any digit-free leading text, then one or two day digits,
an ordinal suffix `st`/`nd`/`rd`/`th`, a space, a non-empty non-digit word
month, a space, four year digits, then arbitrary trailing text —
`extract_date` returns the same result as on the identical title with the
suffix removed. The leftmost `re.search` match starts at the day digits in
both titles (no match can begin inside the digit-free lead, since the
pattern opens with `\d`), and `re.sub` strips the suffix from the matched
substring before `strptime` parses it. -/
theorem extract_date_ordinal_suffix (P dcs suf mcs S : List Char)
    (y1 y2 y3 y4 : Char)
    (hP : ∀ c ∈ P, isDigitC c = false)
    (hday : (∃ c, dcs = [c] ∧ isDigitC c = true)
      ∨ (∃ c1 c2, dcs = [c1, c2] ∧ isDigitC c1 = true ∧ isDigitC c2 = true))
    (hsuf : suf = ['s', 't'] ∨ suf = ['n', 'd'] ∨ suf = ['r', 'd']
      ∨ suf = ['t', 'h'])
    (hm : mcs ≠ [])
    (hmw : ∀ c ∈ mcs, isWordC c = true ∧ isDigitC c = false)
    (hy : isDigitC y1 = true ∧ isDigitC y2 = true ∧ isDigitC y3 = true
      ∧ isDigitC y4 = true) :
    extract_date (String.mk (P ++ (dcs ++ suf ++ ' ' :: mcs ++ ' ' :: (y1 :: y2 :: y3 :: y4 :: S))))
      = extract_date (String.mk (P ++ (dcs ++ ' ' :: mcs ++ ' ' :: (y1 :: y2 :: y3 :: y4 :: S)))) := by
  obtain ⟨a, b, rfl, hpair⟩ : ∃ a b, suf = [a, b] ∧ suffixPair a b = true := by
    rcases hsuf with rfl | rfl | rfl | rfl
    exacts [⟨'s', 't', rfl, rfl⟩, ⟨'n', 'd', rfl, rfl⟩, ⟨'r', 'd', rfl, rfl⟩,
      ⟨'t', 'h', rfl, rfl⟩]
  have hnda : isDigitC a = false := suffix_head_not_digit a b hpair
  obtain ⟨m0, mrest, rfl⟩ : ∃ m0 mrest, mcs = m0 :: mrest := by
    cases mcs with
    | nil => exact absurd rfl hm
    | cons m0 mrest => exact ⟨m0, mrest, rfl⟩
  obtain ⟨hy1, hy2, hy3, hy4⟩ := hy
  have hsep : matchSep (' ' :: ((m0 :: mrest) ++ ' ' :: (y1 :: y2 :: y3 :: y4 :: S)))
      = some (' ' :: ((m0 :: mrest) ++ ' ' :: [y1, y2, y3, y4])) :=
    matchSep_spec _ y1 y2 y3 y4 S (by simp) (fun c hc => (hmw c hc).1)
      hy1 hy2 hy3 hy4
  have hns : trySuffix (' ' :: ((m0 :: mrest) ++ ' ' :: (y1 :: y2 :: y3 :: y4 :: S))) = none :=
    trySuffix_space m0 (mrest ++ ' ' :: (y1 :: y2 :: y3 :: y4 :: S))
  rcases hday with ⟨c, rfl, hc⟩ | ⟨c1, c2, rfl, hc1, hc2⟩
  · have f1 := matchFrom_day1_suffix c a b _ _ hc hnda hpair hsep
    have f2 := matchFrom_day1_plain c ' '
      ((m0 :: mrest) ++ ' ' :: (y1 :: y2 :: y3 :: y4 :: S)) _ hc rfl hns hsep
    have r1 : reSearch (P ++ (c :: a :: b :: ' ' :: ((m0 :: mrest) ++ ' ' :: (y1 :: y2 :: y3 :: y4 :: S))))
        = some (c :: a :: b :: ' ' :: ((m0 :: mrest) ++ ' ' :: [y1, y2, y3, y4])) := by
      rw [reSearch_append_nondigit P _ hP]
      exact reSearch_of_matchFrom _ _ _ f1
    have r2 : reSearch (P ++ (c :: ' ' :: ((m0 :: mrest) ++ ' ' :: (y1 :: y2 :: y3 :: y4 :: S))))
        = some (c :: ' ' :: ((m0 :: mrest) ++ ' ' :: [y1, y2, y3, y4])) := by
      rw [reSearch_append_nondigit P _ hP]
      exact reSearch_of_matchFrom _ _ _ f2
    have e1 := extract_date_eq_of
      (String.mk (P ++ ([c] ++ [a, b] ++ ' ' :: (m0 :: mrest) ++ ' ' :: (y1 :: y2 :: y3 :: y4 :: S))))
      _ r1
    have e2 := extract_date_eq_of
      (String.mk (P ++ ([c] ++ ' ' :: (m0 :: mrest) ++ ' ' :: (y1 :: y2 :: y3 :: y4 :: S))))
      _ r2
    rw [e1, e2]
    have hsub : subOrdinal (c :: a :: b :: ' ' :: ((m0 :: mrest) ++ ' ' :: [y1, y2, y3, y4]))
        = subOrdinal (c :: ' ' :: ((m0 :: mrest) ++ ' ' :: [y1, y2, y3, y4])) := by
      unfold subOrdinal
      rw [subGo_digit_cons false c a _ hc, subGo_suffix_del a b _ hpair,
        subGo_digit_cons false c ' ' _ hc, subGo_space, subGo_space]
    rw [hsub]
  · have f1 := matchFrom_day2_suffix c1 c2 a b _ _ hc1 hc2 hpair hsep
    have f2 := matchFrom_day2_plain c1 c2 ' '
      ((m0 :: mrest) ++ ' ' :: (y1 :: y2 :: y3 :: y4 :: S)) _ hc1 hc2 hns hsep
    have r1 : reSearch (P ++ (c1 :: c2 :: a :: b :: ' ' :: ((m0 :: mrest) ++ ' ' :: (y1 :: y2 :: y3 :: y4 :: S))))
        = some (c1 :: c2 :: a :: b :: ' ' :: ((m0 :: mrest) ++ ' ' :: [y1, y2, y3, y4])) := by
      rw [reSearch_append_nondigit P _ hP]
      exact reSearch_of_matchFrom _ _ _ f1
    have r2 : reSearch (P ++ (c1 :: c2 :: ' ' :: ((m0 :: mrest) ++ ' ' :: (y1 :: y2 :: y3 :: y4 :: S))))
        = some (c1 :: c2 :: ' ' :: ((m0 :: mrest) ++ ' ' :: [y1, y2, y3, y4])) := by
      rw [reSearch_append_nondigit P _ hP]
      exact reSearch_of_matchFrom _ _ _ f2
    have e1 := extract_date_eq_of
      (String.mk (P ++ ([c1, c2] ++ [a, b] ++ ' ' :: (m0 :: mrest) ++ ' ' :: (y1 :: y2 :: y3 :: y4 :: S))))
      _ r1
    have e2 := extract_date_eq_of
      (String.mk (P ++ ([c1, c2] ++ ' ' :: (m0 :: mrest) ++ ' ' :: (y1 :: y2 :: y3 :: y4 :: S))))
      _ r2
    rw [e1, e2]
    have hsub : subOrdinal (c1 :: c2 :: a :: b :: ' ' :: ((m0 :: mrest) ++ ' ' :: [y1, y2, y3, y4]))
        = subOrdinal (c1 :: c2 :: ' ' :: ((m0 :: mrest) ++ ' ' :: [y1, y2, y3, y4])) := by
      unfold subOrdinal
      rw [subGo_digit_cons false c1 c2 _ hc1, subGo_digit_cons true c2 a _ hc2,
        subGo_suffix_del a b _ hpair, subGo_digit_cons false c1 c2 _ hc1,
        subGo_digit_cons true c2 ' ' _ hc2, subGo_space, subGo_space]
    rw [hsub]

/-- Witness for C5: the claim's own bare example, and a title with
surrounding text on both sides of the suffixed date. -/
theorem extract_date_ordinal_suffix_witness :
    extract_date "12th January 1800" = extract_date "12 January 1800"
    ∧ extract_date "12 January 1800" = Except.ok (some ⟨1800, 1, 12⟩)
    ∧ extract_date "Trial of John, 15th January 1800, theft."
        = extract_date "Trial of John, 15 January 1800, theft."
    ∧ extract_date "Trial of John, 15 January 1800, theft."
        = Except.ok (some ⟨1800, 1, 15⟩) :=
  ⟨extract_date_ordinal_suffix [] ['1', '2'] ['t', 'h'] "January".toList []
      '1' '8' '0' '0' (by decide)
      (Or.inr ⟨'1', '2', rfl, rfl, rfl⟩)
      (Or.inr (Or.inr (Or.inr rfl)))
      (by decide) (by decide) ⟨rfl, rfl, rfl, rfl⟩,
    rfl,
    extract_date_ordinal_suffix "Trial of John, ".toList ['1', '5'] ['t', 'h']
      "January".toList ", theft.".toList '1' '8' '0' '0' (by decide)
      (Or.inr ⟨'1', '5', rfl, rfl, rfl⟩)
      (Or.inr (Or.inr (Or.inr rfl)))
      (by decide) (by decide) ⟨rfl, rfl, rfl, rfl⟩,
    rfl⟩

/-! ## Claim C7: best-effort detail enrichment -/

theorem filterMap_isNone_length {α β : Type} (f : α → Option β) (l : List α) :
    (l.filterMap f).length + (l.filter (fun a => (f a).isNone)).length
      = l.length := by
  induction l with
  | nil => rfl
  | cons a l ih =>
    cases hf : f a with
    | some b =>
      simp only [List.filterMap_cons, List.filter_cons, hf, Option.isNone_some,
        Bool.false_eq_true, if_false, List.length_cons]
      omega
    | none =>
      simp only [List.filterMap_cons, List.filter_cons, hf, Option.isNone_none,
        if_true, List.length_cons]
      omega

/-- Unfolding equation of `detailsGo` for a non-empty row list. -/
theorem detailsGo_cons (api : String → DetailResponse) (n : Nat) (r : Row)
    (rs : List Row) (i : Nat) :
    detailsGo api n (r :: rs) i =
      match fetch_detailed_data api r.idkey with
      | some detail =>
        ((detail :: (detailsGo api n rs (i + 1)).1),
          ((i + 1, n) :: (detailsGo api n rs (i + 1)).2))
      | none =>
        ((detailsGo api n rs (i + 1)).1,
          ((i + 1, n) :: (detailsGo api n rs (i + 1)).2)) := rfl

theorem detailsGo_spec (api : String → DetailResponse) (n : Nat)
    (l : List Row) : ∀ i : Nat,
    (detailsGo api n l i).1
        = l.filterMap (fun r => fetch_detailed_data api r.idkey)
    ∧ (detailsGo api n l i).2
        = (List.range' (i + 1) l.length).map (fun j => (j, n)) := by
  induction l with
  | nil => intro i; exact ⟨rfl, rfl⟩
  | cons r rs ih =>
    intro i
    obtain ⟨ih1, ih2⟩ := ih (i + 1)
    rw [detailsGo_cons]
    cases hd : fetch_detailed_data api r.idkey with
    | some d =>
      constructor
      · simp [List.filterMap_cons, hd, ih1]
      · simp only [List.length_cons, List.range'_succ, List.map_cons]
        rw [ih2]
    | none =>
      constructor
      · simp [List.filterMap_cons, hd, ih1]
      · simp only [List.length_cons, List.range'_succ, List.map_cons]
        rw [ih2]

/-- C7: over `n` rows of which `k` detail lookups fail, `fetch_all_details`
returns exactly the successful lookups (`n - k` of them, stated additively)
in the relative order of their rows, never raising on an individual
failure (`fetch_detailed_data` is total: every failure is `none`), and
reports progress `(i + 1) / n` after every attempt, success or failure
alike. -/
theorem fetch_all_details_best_effort (api : String → DetailResponse)
    (rows : List Row) :
    (fetch_all_details api rows).1
        = rows.filterMap (fun r => fetch_detailed_data api r.idkey)
    ∧ (fetch_all_details api rows).1.length
        + (rows.filter (fun r => (fetch_detailed_data api r.idkey).isNone)).length
        = rows.length
    ∧ (fetch_all_details api rows).2
        = (List.range rows.length).map (fun i => (i + 1, rows.length)) := by
  obtain ⟨h1, h2⟩ := detailsGo_spec api rows.length rows 0
  refine ⟨h1, ?_, ?_⟩
  · rw [fetch_all_details, h1]
    exact filterMap_isNone_length _ rows
  · rw [fetch_all_details, h2, List.range'_eq_map_range]
    rw [List.map_map]
    have hf : ((fun j => (j, rows.length)) ∘ (0 + 1 + ·))
        = (fun i => (i + 1, rows.length)) := by
      funext j
      simp [Function.comp]
      omega
    rw [hf]

/-! ## Claim C8: the year-range filter -/

theorem toDigitsCore_eq (fuel n : Nat) (ds : List Char) (h : n < fuel) :
    Nat.toDigitsCore 10 fuel n ds = natChars n ++ ds := by
  induction fuel generalizing n ds with
  | zero => omega
  | succ fuel ih =>
    rw [Nat.toDigitsCore]
    by_cases h10 : n < 10
    · have hz : n / 10 = 0 := by omega
      have hmod : n % 10 = n := by omega
      rw [if_pos hz]
      conv_rhs => rw [natChars]
      rw [if_pos h10, hmod]
      rfl
    · have hz : ¬ n / 10 = 0 := by omega
      rw [if_neg hz, ih (n / 10) _ (by omega)]
      conv_rhs => rw [natChars]
      rw [if_neg h10, List.append_assoc]
      rfl

theorem toString_data (n : Nat) : (toString n).data = natChars n := by
  have h : (toString n).data = Nat.toDigitsCore 10 (n + 1) n [] := rfl
  rw [h, toDigitsCore_eq (n + 1) n [] (Nat.lt_succ_self n), List.append_nil]

/-- `toString` of a four-digit number, digit by digit. -/
theorem toString_data_four (n : Nat) (h1 : 1000 ≤ n) (h2 : n ≤ 9999) :
    (toString n).data = [Nat.digitChar (n / 1000), Nat.digitChar (n / 100 % 10),
      Nat.digitChar (n / 10 % 10), Nat.digitChar (n % 10)] := by
  have e1 : n / 10 / 10 = n / 100 := by omega
  have e2 : n / 100 / 10 = n / 1000 := by omega
  rw [toString_data]
  rw [natChars, if_neg (by omega), natChars, if_neg (by omega), e1,
    natChars, if_neg (by omega), e2, natChars, if_pos (by omega)]
  simp

theorem data_append (s t : String) : (s ++ t).data = s.data ++ t.data := rfl

theorem pad2_data : ∀ n, n < 100 →
    (pad2 n).data = [Nat.digitChar (n / 10), Nat.digitChar (n % 10)] := by
  decide

theorem formatDate_data (dt : Date) (hy1 : 1000 ≤ dt.year) (hy2 : dt.year ≤ 9999)
    (hm : dt.month ≤ 99) (hd : dt.day ≤ 99) :
    (formatDate dt).data = dateData dt.year dt.month dt.day := by
  unfold formatDate
  rw [data_append, data_append, data_append, data_append,
    toString_data_four dt.year hy1 hy2, pad2_data dt.month (by omega),
    pad2_data dt.day (by omega)]
  rfl

theorem bound_lo_data (lo : Nat) (h1 : 1000 ≤ lo) (h2 : lo ≤ 9999) :
    (toString lo ++ "-01-01").data = dateData lo 1 1 := by
  rw [data_append, toString_data_four lo h1 h2]
  rfl

theorem bound_hi_data (hi : Nat) (h1 : 1000 ≤ hi) (h2 : hi ≤ 9999) :
    (toString hi ++ "-12-31").data = dateData hi 12 31 := by
  rw [data_append, toString_data_four hi h1 h2]
  rfl

theorem lex_cons_iff {α : Type} [LT α] (a b : α) (l1 l2 : List α) :
    List.Lex (· < ·) (a :: l1) (b :: l2)
      ↔ a < b ∨ (a = b ∧ List.Lex (· < ·) l1 l2) := by
  constructor
  · intro h
    cases h with
    | cons h => exact Or.inr ⟨rfl, h⟩
    | rel h => exact Or.inl h
  · rintro (h | ⟨rfl, h⟩)
    · exact List.Lex.rel h
    · exact List.Lex.cons h

theorem digitChar_lt_iff : ∀ a, a < 10 → ∀ b, b < 10 →
    (Nat.digitChar a < Nat.digitChar b ↔ a < b) := by decide

theorem digitChar_inj : ∀ a, a < 10 → ∀ b, b < 10 →
    (Nat.digitChar a = Nat.digitChar b ↔ a = b) := by decide

theorem digitChar_lt_U : ∀ k, k ≤ 9 → Nat.digitChar k < 'U' := by decide

/-- Lexicographic comparison of two four-digit blocks followed by
arbitrary tails. -/
theorem lex_year_append (y y' : Nat) (t1 t2 : List Char)
    (hy : y ≤ 9999) (hy' : y' ≤ 9999) :
    List.Lex (· < ·)
      (Nat.digitChar (y / 1000) :: Nat.digitChar (y / 100 % 10)
        :: Nat.digitChar (y / 10 % 10) :: Nat.digitChar (y % 10) :: t1)
      (Nat.digitChar (y' / 1000) :: Nat.digitChar (y' / 100 % 10)
        :: Nat.digitChar (y' / 10 % 10) :: Nat.digitChar (y' % 10) :: t2)
      ↔ y < y' ∨ (y = y' ∧ List.Lex (· < ·) t1 t2) := by
  rw [lex_cons_iff, lex_cons_iff, lex_cons_iff, lex_cons_iff,
    digitChar_lt_iff _ (by omega) _ (by omega),
    digitChar_inj _ (by omega) _ (by omega),
    digitChar_lt_iff _ (by omega) _ (by omega),
    digitChar_inj _ (by omega) _ (by omega),
    digitChar_lt_iff _ (by omega) _ (by omega),
    digitChar_inj _ (by omega) _ (by omega),
    digitChar_lt_iff _ (by omega) _ (by omega),
    digitChar_inj _ (by omega) _ (by omega)]
  by_cases hP : List.Lex (· < ·) t1 t2 <;> simp [hP] <;> omega

/-- Lexicographic comparison of two two-digit blocks followed by
arbitrary tails. -/
theorem lex_two_append (m m' : Nat) (t1 t2 : List Char)
    (hm : m ≤ 99) (hm' : m' ≤ 99) :
    List.Lex (· < ·)
      (Nat.digitChar (m / 10) :: Nat.digitChar (m % 10) :: t1)
      (Nat.digitChar (m' / 10) :: Nat.digitChar (m' % 10) :: t2)
      ↔ m < m' ∨ (m = m' ∧ List.Lex (· < ·) t1 t2) := by
  rw [lex_cons_iff, lex_cons_iff,
    digitChar_lt_iff _ (by omega) _ (by omega),
    digitChar_inj _ (by omega) _ (by omega),
    digitChar_lt_iff _ (by omega) _ (by omega),
    digitChar_inj _ (by omega) _ (by omega)]
  by_cases hP : List.Lex (· < ·) t1 t2 <;> simp [hP] <;> omega

/-- On `"YYYY-MM-DD"` character lists, lexicographic order is exactly the
order of `dateKey`. -/
theorem dateData_lex (y m d y' m' d' : Nat)
    (hy : y ≤ 9999) (hy' : y' ≤ 9999) (hm : m ≤ 99) (hm' : m' ≤ 99)
    (hd : d ≤ 99) (hd' : d' ≤ 99) :
    List.Lex (· < ·) (dateData y m d) (dateData y' m' d')
      ↔ dateKey y m d < dateKey y' m' d' := by
  unfold dateData dateKey
  rw [lex_year_append _ _ _ _ hy hy', lex_cons_iff,
    lex_two_append _ _ _ _ hm hm', lex_cons_iff,
    lex_two_append _ _ _ _ hd hd']
  simp [show ¬ ('-' : Char) < '-' by decide, List.Lex.not_nil_right]
  omega

theorem strLe_true_iff (a b : String) :
    strLe a b = true ↔ ¬ List.Lex (· < ·) b.data a.data := by
  simp [strLe]

/-- C8: for every year range `[lo, hi]` of four-digit years, the filter of
`main` keeps exactly the rows whose `date` string is between
`"{lo}-01-01"` and `"{hi}-12-31"` inclusive; on a row whose date is a
formatted calendar date that comparison is precisely
`lo-01-01 ≤ date ≤ hi-12-31` in calendar order (so rows strictly before
or after the interval are excluded); a row carrying the `"Unknown"`
sentinel is always excluded. -/
theorem yearRangeFilter_correct (rows : List Row) (lo hi : Nat)
    (hlo1 : 1000 ≤ lo) (hlo2 : lo ≤ 9999) (hhi1 : 1000 ≤ hi) (hhi2 : hi ≤ 9999) :
    (∀ r : Row, r ∈ yearRangeFilter rows lo hi ↔ r ∈ rows ∧
      (strLe (toString lo ++ "-01-01") r.date
        && strLe r.date (toString hi ++ "-12-31")) = true)
    ∧ (∀ dt : Date, 1000 ≤ dt.year → dt.year ≤ 9999 →
        1 ≤ dt.month → dt.month ≤ 12 → 1 ≤ dt.day → dt.day ≤ 31 →
        ((strLe (toString lo ++ "-01-01") (formatDate dt)
          && strLe (formatDate dt) (toString hi ++ "-12-31")) = true
          ↔ (dateKey lo 1 1 ≤ dateKey dt.year dt.month dt.day
            ∧ dateKey dt.year dt.month dt.day ≤ dateKey hi 12 31)))
    ∧ (strLe (toString lo ++ "-01-01") "Unknown"
        && strLe "Unknown" (toString hi ++ "-12-31")) = false := by
  refine ⟨?_, ?_, ?_⟩
  · intro r
    simp [yearRangeFilter, List.mem_filter]
  · intro dt h1 h2 h3 h4 h5 h6
    rw [Bool.and_eq_true, strLe_true_iff, strLe_true_iff,
      formatDate_data dt h1 h2 (by omega) (by omega),
      bound_lo_data lo hlo1 hlo2, bound_hi_data hi hhi1 hhi2,
      dateData_lex _ _ _ _ _ _ h2 hlo2 (by omega) (by omega) (by omega) (by omega),
      dateData_lex _ _ _ _ _ _ hhi2 h2 (by omega) (by omega) (by omega) (by omega)]
    omega
  · have hlex : List.Lex (· < ·) (toString hi ++ "-12-31").data
        ("Unknown" : String).data := by
      rw [bound_hi_data hi hhi1 hhi2]
      exact List.Lex.rel (digitChar_lt_U _ (by omega))
    have h2 : strLe "Unknown" (toString hi ++ "-12-31") = false := by
      unfold strLe
      rw [decide_eq_true hlex]
      rfl
    rw [h2, Bool.and_false]

/-- Witness for C8 at the range `[1750, 1800]` of the spec's example. -/
theorem yearRangeFilter_correct_witness :
    (sampleRow ∈ yearRangeFilter [sampleRow] 1750 1800 ↔ sampleRow ∈ [sampleRow] ∧
      (strLe (toString 1750 ++ "-01-01") sampleRow.date
        && strLe sampleRow.date (toString 1800 ++ "-12-31")) = true)
    ∧ ((strLe (toString 1750 ++ "-01-01") (formatDate ⟨1800, 1, 15⟩)
        && strLe (formatDate ⟨1800, 1, 15⟩) (toString 1800 ++ "-12-31")) = true
        ↔ (dateKey 1750 1 1 ≤ dateKey 1800 1 15
          ∧ dateKey 1800 1 15 ≤ dateKey 1800 12 31))
    ∧ (strLe (toString 1750 ++ "-01-01") "Unknown"
        && strLe "Unknown" (toString 1800 ++ "-12-31")) = false :=
  ⟨(yearRangeFilter_correct [sampleRow] 1750 1800 (by decide) (by decide)
      (by decide) (by decide)).1 sampleRow,
    (yearRangeFilter_correct [sampleRow] 1750 1800 (by decide) (by decide)
      (by decide) (by decide)).2.1 ⟨1800, 1, 15⟩ (by decide) (by decide)
      (by decide) (by decide) (by decide) (by decide),
    (yearRangeFilter_correct [sampleRow] 1750 1800 (by decide) (by decide)
      (by decide) (by decide)).2.2⟩
